import Mathlib

/-!
Verification development for the Investa report-assembly pipeline
(`src/app.py`).  The Python program is shallowly embedded: Python strings
become Lean `String`s, Python dicts become association lists over a small
value type `PyVal`, fetcher outcomes become an explicit `FetchResult`
type (a raised-and-caught exception is `unavailable`), the SQLite user
store becomes an association list of rows, and the two module-level
runtime inputs (`datetime.now().date()` and the Groq client) are passed
as parameters (a day number and an oracle `String → List String` giving
the completion choices).
-/

/-- Python-style string operations, defined structurally over the
underlying character list so they evaluate inside the kernel.
`strStartsWith s p` is Python `s.startswith(p)`. -/
def strStartsWith (s p : String) : Bool := p.data.isPrefixOf s.data

/-- Python slicing `s[n:]` (all text here is ASCII, one char per code point). -/
def strDrop (s : String) (n : Nat) : String := String.mk (s.data.drop n)

/-- Helper for `splitLines`: Python `str.split('\n')` on a character list. -/
def splitLinesAux : List Char → List (List Char)
  | [] => [[]]
  | c :: rest =>
    if c = '\n' then [] :: splitLinesAux rest
    else
      match splitLinesAux rest with
      | [] => [[c]]
      | l :: ls => (c :: l) :: ls

/-- Python `content.split('\n')`: `""` gives `[""]`, a trailing newline
gives a trailing empty line. -/
def splitLines (s : String) : List String := (splitLinesAux s.data).map String.mk

/-- The string `needle` occurs verbatim somewhere inside `hay`. -/
def occursIn (needle hay : String) : Prop := ∃ a b : String, hay = a ++ needle ++ b

/-- A Python value as it appears in the fetched payload dictionaries:
`None`, a string, or an integer (floats are abstracted to integers; the
claims never depend on fractional values). -/
inductive PyVal where
  | vNone
  | vStr (s : String)
  | vNum (n : Int)
deriving DecidableEq

/-- Python truthiness of a `PyVal` (`None`, `""` and `0` are falsy). -/
def PyVal.truthy : PyVal → Bool
  | .vNone => false
  | .vStr s => !s.data.isEmpty
  | .vNum n => n ≠ 0

/-- Python `f"{v}"` string interpolation of a `PyVal`
(`f"{None}"` is `"None"`). -/
def PyVal.fmt : PyVal → String
  | .vNone => "None"
  | .vStr s => s
  | .vNum n => toString n

/-- A Python dict from string keys to values, as an association list
(keys are unique in the dicts the program builds; lookup takes the first
occurrence). -/
abbrev PyDict := List (String × PyVal)

/-- Dict key lookup: `some v` when the key is present. -/
def pyFind : PyDict → String → Option PyVal
  | [], _ => none
  | (k, v) :: rest, key => if k = key then some v else pyFind rest key

/-- Python `d.get(k)`: the key's value, or `None` when the key is absent. -/
def pyGet (d : PyDict) (k : String) : PyVal := (pyFind d k).getD .vNone

/-- Python `d.get(k, default)`: the key's value, or `default` when the
key is absent (a present key with value `None` yields `None`, not the
default). -/
def pyGetD (d : PyDict) (k : String) (default : PyVal) : PyVal :=
  (pyFind d k).getD default

/-- The outcome of one data fetcher at its failure boundary:
`available payload`, or `unavailable` when the call raised and the
surrounding `try/except` swallowed the error (src/app.py lines 252-356). -/
inductive FetchResult (α : Type) where
  | available (payload : α)
  | unavailable

/-- The fetcher boundary of `main`: a raising fetcher (`Except.error`)
surfaces as `unavailable`, a normal return as `available`
(the `try`/`except` blocks of src/app.py lines 253-356). -/
def FetchResult.ofExcept {α : Type} : Except String α → FetchResult α
  | .ok a => .available a
  | .error _ => .unavailable

/-- The `Current Stock Price` value of `company_info_cleaned`
(src/app.py line 260):
`f"{d.get('regularMarketPrice', d.get('currentPrice'))} {d.get('currency', 'USD')}"`. -/
def currentStockPriceVal (d : PyDict) : PyVal :=
  .vStr ((pyGetD d "regularMarketPrice" (pyGet d "currentPrice")).fmt ++ " "
    ++ (pyGetD d "currency" (.vStr "USD")).fmt)

/-- The `Market Cap` value of `company_info_cleaned` (src/app.py line 261):
`f"{d.get('marketCap', d.get('enterpriseValue'))} {d.get('currency', 'USD')}"`. -/
def marketCapVal (d : PyDict) : PyVal :=
  .vStr ((pyGetD d "marketCap" (pyGet d "enterpriseValue")).fmt ++ " "
    ++ (pyGetD d "currency" (.vStr "USD")).fmt)

/-- The `company_info_cleaned` dict built in `main`
(src/app.py lines 257-287), in insertion order. -/
def company_info_cleaned (d : PyDict) : List (String × PyVal) :=
  [("Name", pyGet d "shortName"),
   ("Symbol", pyGet d "symbol"),
   ("Current Stock Price", currentStockPriceVal d),
   ("Market Cap", marketCapVal d),
   ("Sector", pyGet d "sector"),
   ("Industry", pyGet d "industry"),
   ("Address", pyGet d "address1"),
   ("City", pyGet d "city"),
   ("State", pyGet d "state"),
   ("Zip", pyGet d "zip"),
   ("Country", pyGet d "country"),
   ("EPS", pyGet d "trailingEps"),
   ("P/E Ratio", pyGet d "trailingPE"),
   ("52 Week Low", pyGet d "fiftyTwoWeekLow"),
   ("52 Week High", pyGet d "fiftyTwoWeekHigh"),
   ("50 Day Average", pyGet d "fiftyDayAverage"),
   ("200 Day Average", pyGet d "twoHundredDayAverage"),
   ("Website", pyGet d "website"),
   ("Summary", pyGet d "longBusinessSummary"),
   ("Analyst Recommendation", pyGet d "recommendationKey"),
   ("Number Of Analyst Opinions", pyGet d "numberOfAnalystOpinions"),
   ("Employees", pyGet d "fullTimeEmployees"),
   ("Total Cash", pyGet d "totalCash"),
   ("Free Cash flow", pyGet d "freeCashflow"),
   ("Operating Cash flow", pyGet d "operatingCashflow"),
   ("EBITDA", pyGet d "ebitda"),
   ("Revenue Growth", pyGet d "revenueGrowth"),
   ("Gross Margins", pyGet d "grossMargins"),
   ("Ebitda Margins", pyGet d "ebitdaMargins")]

/-- One iteration of the `for key, value in company_info_cleaned.items()`
loop (src/app.py lines 289-291): the line is emitted only when the value
is truthy. -/
def companyInfoEntryMd (kv : String × PyVal) : String :=
  if kv.2.truthy then "  - " ++ kv.1 ++ ": " ++ kv.2.fmt ++ "\n\n" else ""

/-- The `company_info_md` string (src/app.py lines 288-291): the section
header, then one line per truthy cleaned field. -/
def company_info_md (d : PyDict) : String :=
  ((company_info_cleaned d).map companyInfoEntryMd).foldl (· ++ ·) "## Company Info\n\n"

/-- What the company-info block appends to `report_input`
(src/app.py lines 256-294): nothing when the fetched dict is falsy
(`if company_info_full:`), otherwise the intro line, `company_info_md`,
and the `---` separator. -/
def companyInfoContrib : FetchResult PyDict → String
  | .unavailable => ""
  | .available d =>
    if d.isEmpty then ""
    else "This section contains information about the company.\n\n"
      ++ company_info_md d ++ "---\n"

/-- One news item as returned by the news search: `title` is always
present (the code subscripts it unconditionally), the other keys are
optional (`if "date" in news_item:` etc., src/app.py lines 306-314). -/
structure NewsItem where
  title : String
  date : Option String
  url : Option String
  source : Option String
  body : Option String

/-- The markdown block for one news item (src/app.py lines 305-315). -/
def newsItemMd (n : NewsItem) : String :=
  "#### " ++ n.title ++ "\n\n"
  ++ (match n.date with | some d => "  - Date: " ++ d ++ "\n\n" | none => "")
  ++ (match n.url with | some u => "  - Link: " ++ u ++ "\n\n" | none => "")
  ++ (match n.source with | some s => "  - Source: " ++ s ++ "\n\n" | none => "")
  ++ (match n.body with | some b => b | none => "")
  ++ "\n\n"

/-- What the news block appends to `report_input`
(src/app.py lines 302-318): nothing when the list is empty
(`if len(company_news) > 0:`), otherwise the intro line, the
`company_news_md` string, and the separator. -/
def newsContrib : FetchResult (List NewsItem) → String
  | .unavailable => ""
  | .available items =>
    if items.isEmpty then ""
    else "This section contains the most recent news articles about the company.\n\n"
      ++ ("## Company News\n\n\n" ++ (items.map newsItemMd).foldl (· ++ ·) "")
      ++ "---\n"

/-- One row of the analyst-recommendations table, with the columns the
code reads (`Action`, `Firm`, `To Grade`) plus the period index and
from-grade. -/
structure RecRow where
  period : String
  firm : String
  action : String
  fromGrade : String
  toGrade : String

/-- Rendering of the recommendations table.  This models the external
`pandas.DataFrame.to_markdown()` call (a collaborator library, not code
of this repository) as one pipe-delimited line per row; the claims never
inspect this text, only whether the section is present. -/
def recsToMarkdown (rows : List RecRow) : String :=
  (rows.map (fun r => "| " ++ r.period ++ " | " ++ r.firm ++ " | " ++ r.action
    ++ " | " ++ r.fromGrade ++ " | " ++ r.toGrade ++ " |\n")).foldl (· ++ ·) ""

/-- What the analyst-recommendations block appends to `report_input`
(src/app.py lines 326-332): nothing when the fetch raised, returned
`None`, or returned an empty table
(`if analyst_recommendations is not None and not analyst_recommendations.empty:`). -/
def recsContrib : FetchResult (Option (List RecRow)) → String
  | .unavailable => ""
  | .available none => ""
  | .available (some rows) =>
    if rows.isEmpty then ""
    else "## Analyst Recommendations\n\n"
      ++ "This table outlines the most recent analyst recommendations for the stock.\n\n"
      ++ (recsToMarkdown rows ++ "\n")
      ++ "---\n"

/-- The derived upgrades/downgrades subsequence (src/app.py line 342):
`table[table['Action'].isin(['upgraded','downgraded'])].head(2)`. -/
def udFilter (rows : List RecRow) : List RecRow :=
  (rows.filter (fun r => r.action == "upgraded" || r.action == "downgraded")).take 2

/-- The `upgrades_downgrades_md` string (src/app.py lines 344-346). -/
def udMd (rows : List RecRow) : String :=
  (rows.map (fun r => "- " ++ r.firm ++ " " ++ r.action ++ " the stock to "
    ++ r.toGrade ++ ".\n")).foldl (· ++ ·) ""

/-- What the upgrades/downgrades block appends to `report_input`
(src/app.py lines 340-350): the table must be present and non-empty, and
the filtered subsequence must itself be non-empty
(`if not upgrades_downgrades.empty:` after the filter). -/
def udContrib : FetchResult (Option (List RecRow)) → String
  | .unavailable => ""
  | .available none => ""
  | .available (some rows) =>
    if rows.isEmpty then ""
    else if (udFilter rows).isEmpty then ""
    else "## Upgrades/Downgrades\n\n"
      ++ "This section outlines the most recent upgrades and downgrades for the stock.\n\n"
      ++ (udMd (udFilter rows) ++ "\n")
      ++ "---\n"

/-- The `report_input` string assembled by `main` (src/app.py
lines 250-356): starting from `""`, the four sections are appended in the
fixed program order company info, news, recommendations,
upgrades/downgrades. -/
def assembleReportInput (rCI : FetchResult PyDict) (rNews : FetchResult (List NewsItem))
    (rRecs rUD : FetchResult (Option (List RecRow))) : String :=
  "" ++ companyInfoContrib rCI ++ newsContrib rNews ++ recsContrib rRecs ++ udContrib rUD

/-- The whole fetch-and-assemble stage of `main`, with each fetcher's
raw outcome (`Except.error` = the call raised) passed through its
individual `try`/`except` boundary.  The recommendations fetcher is
called twice in the source (once for the table, once for the
upgrades/downgrades section), hence two independent outcomes. -/
def runPipeline (f1 : Except String PyDict) (f2 : Except String (List NewsItem))
    (f3 f4 : Except String (Option (List RecRow))) : String :=
  assembleReportInput (.ofExcept f1) (.ofExcept f2) (.ofExcept f3) (.ofExcept f4)

/-- The fixed analyst-persona description of `generate_report`
(src/app.py line 114). -/
def analystDescription : String :=
  "You are a Senior Investment Analyst for Goldman Sachs tasked with producing a research report for a very important client."

/-- The fixed instruction list of `generate_report` (src/app.py
lines 115-123). -/
def analystInstructions : List String :=
  ["You will be provided with a stock and information from junior researchers.",
   "Carefully read the research and generate a final - Goldman Sachs worthy investment report.",
   "Make your report engaging, informative, and well-structured.",
   "When you share numbers, make sure to include the units (e.g., millions/billions) and currency.",
   "REMEMBER: This report is for a very important client, so the quality of the report is important.",
   "Make sure your report is properly formatted in md and follows the <report_format> provided below.",
   "IMPORTANT: Make sure to say whether to invest in the given stock or not."]

/-- The fixed `report_format` template string of `generate_report`
(src/app.py lines 124-163), verbatim: a plain (non-interpolated) Python
triple-quoted string, so the braced slots are literal text. -/
def report_format : String :=
  String.intercalate "\n"
    ["",
     "    # [Company Name]: Investment Report",
     "",
     "    ### Overview",
     "    \x7bgive a brief introduction of the company and why the user should read this report\x7d",
     "    \x7bmake this section engaging and create a hook for the reader\x7d",
     "",
     "    ### Core Metrics",
     "    \x7bprovide a summary of core metrics and show the latest data\x7d",
     "    - Current price: \x7bcurrent price\x7d",
     "    - 52-week high: \x7b52-week high\x7d",
     "    - 52-week low: \x7b52-week low\x7d",
     "    - Market Cap: \x7bMarket Cap\x7d in billions",
     "    - P/E Ratio: \x7bP/E Ratio\x7d",
     "    - Earnings per Share: \x7bEPS\x7d",
     "    - 50-day average: \x7b50-day average\x7d",
     "    - 200-day average: \x7b200-day average\x7d",
     "    - Analyst Recommendations: \x7bbuy, hold, sell\x7d (number of analysts)",
     "",
     "    ### Financial Performance",
     "    \x7bprovide a detailed analysis of the company\x27s financial performance\x7d",
     "",
     "    ### Growth Prospects",
     "    \x7banalyze the company\x27s growth prospects and future potential\x7d",
     "",
     "    ### News and Updates",
     "    \x7bsummarize relevant news that can impact the stock price\x7d",
     "",
     "    ### Upgrades and Downgrades",
     "    \x7bshare 2 upgrades or downgrades including the firm, and what they upgraded/downgraded to\x7d",
     "    \x7bthis should be a paragraph not a table\x7d",
     "",
     "    ### Summary",
     "    \x7bgive a summary of the report and what are the key takeaways\x7d",
     "",
     "    ### Recommendation",
     "    \x7bprovide a recommendation on the stock along with a thorough reasoning\x7d",
     "",
     "    Report generated on: \x7bcurrent_time\x7d",
     "    "]

/-- The completion request body of `generate_report` (src/app.py
line 164), with the module-level `current_time` passed as a parameter. -/
def reportPrompt (current_time report_input : String) : String :=
  analystDescription ++ "\n\nInstructions: " ++ String.intercalate ", " analystInstructions
    ++ "\n\nReport Format:\n" ++ report_format
    ++ "\n\nCompany Information: " ++ report_input
    ++ "\n\nCurrent Time : " ++ current_time ++ "\n\n"

/-- The Report Generator `generate_report` (src/app.py lines 113-171).
The language-model endpoint is an oracle `llm` returning the list of
completion choices; the code reads `choices[0].message.content`, which
raises when no choice came back, hence `Option` via `head?`. -/
def generate_report (llm : String → List String) (current_time report_input : String) :
    Option String :=
  (llm (reportPrompt current_time report_input)).head?

/-- One ReportLab flowable as `generate_pdf` builds them: a `Paragraph`
with its text and named style, or a `Spacer` with width and height. -/
inductive Flowable where
  | para (text : String) (style : String)
  | spacer (w h : Nat)
deriving DecidableEq

/-- Whether a flowable carries line content (a `Paragraph`) rather than
being a `Spacer`. -/
def Flowable.isContent : Flowable → Bool
  | .para _ _ => true
  | .spacer _ _ => false

/-- The flowables `generate_pdf` emits for a single line of the report
(src/app.py lines 181-193): the branch chain on the line's marker, then
the unconditional trailing `Spacer(1, 6)`. -/
def lineFlowables (line : String) : List Flowable :=
  (if strStartsWith line "# " then
     [.para (strDrop line 2) "Title", .spacer 1 12]
   else if strStartsWith line "### " then
     [.para (strDrop line 4) "Heading3", .spacer 1 6]
   else if strStartsWith line "- " then
     [.para ("• " ++ strDrop line 2) "BodyText"]
   else
     [.para line "Justify"]) ++ [.spacer 1 6]

/-- The Document Renderer `generate_pdf` (src/app.py lines 173-197),
modelled as the list of flowables handed to `doc.build`: the content is
split on newlines and each line contributes its `lineFlowables`. -/
def generate_pdf (content : String) : List Flowable :=
  (splitLines content).flatMap lineFlowables

/-- One row of the SQLite `users` table (src/app.py lines 38-39):
username is the key of the store; the stored date is modelled as a day
number. -/
structure UserRow where
  password : String
  usage_count : Nat
  last_reset : Nat
deriving DecidableEq

/-- The `users` table as an association list keyed by username. -/
abbrev UserStore := List (String × UserRow)

/-- `SELECT ... FROM users WHERE username = ?` followed by `fetchone()`:
`none` models the `None` result for an unregistered username. -/
def findUser : UserStore → String → Option UserRow
  | [], _ => none
  | (n, r) :: rest, u => if n = u then some r else findUser rest u

/-- `UPDATE users SET ... WHERE username = ?`: rewrite every row whose
username matches. -/
def updateUser : UserStore → String → (UserRow → UserRow) → UserStore
  | [], _, _ => []
  | (n, r) :: rest, u, f =>
    (if n = u then (n, f r) else (n, r)) :: updateUser rest u f

/-- `create_user` (src/app.py lines 49-57): hash the password (the salted
bcrypt hash is an oracle `hashFn`), INSERT the new row; a primary-key
conflict raises `IntegrityError`, caught to return `False` with the
store untouched. -/
def create_user (hashFn : String → String) (today : Nat) (db : UserStore)
    (username password : String) : Bool × UserStore :=
  let hashed := hashFn password
  match findUser db username with
  | some _ => (false, db)
  | none => (true, db ++ [(username, ⟨hashed, 0, today⟩)])

/-- `reset_usage_if_new_day` (src/app.py lines 66-72): fetch the row
(`fetchone()[0]` raises on a missing user, hence `none`); when the
stored date differs from today, zero the count and stamp today. -/
def reset_usage_if_new_day (today : Nat) (db : UserStore) (u : String) : Option UserStore :=
  match findUser db u with
  | none => none
  | some row =>
    if row.last_reset ≠ today then
      some (updateUser db u (fun r => { r with usage_count := 0, last_reset := today }))
    else
      some db

/-- `increment_usage` (src/app.py lines 74-77): day-reset first, then
`usage_count = usage_count + 1`. -/
def increment_usage (today : Nat) (db : UserStore) (u : String) : Option UserStore :=
  match reset_usage_if_new_day today db u with
  | none => none
  | some db2 => some (updateUser db2 u (fun r => { r with usage_count := r.usage_count + 1 }))

/-- `get_usage_count` (src/app.py lines 79-81): `fetchone()[0]` raises on
a missing user (hence `none`); no day-reset is applied here. -/
def get_usage_count (db : UserStore) (u : String) : Option Nat :=
  match findUser db u with
  | none => none
  | some row => some row.usage_count

/-- The usage gate at the top of `main` (src/app.py lines 202-222):
`usage_count = get_usage_count(username)`, and the run proceeds iff
`usage_count >= 5` is false.  Note the stored count is used as-is: no
day-reset runs before this check. -/
def mainUsageGate (db : UserStore) (u : String) : Option Bool :=
  match get_usage_count db u with
  | none => none
  | some c => some (decide (c < 5))

/-- Modelled from the spec (section 4.5 Usage Gate), for comparison with
`mainUsageGate`: `checkAndReserve` first applies the day-reset rule to
the stored row, then fails exactly when the current-day count is at
least 5.  Returns the verdict together with the store after the reset. -/
def specCheckAndReserve (today : Nat) (db : UserStore) (u : String) :
    Option (Bool × UserStore) :=
  match reset_usage_if_new_day today db u with
  | none => none
  | some db2 =>
    match get_usage_count db2 u with
    | none => none
    | some c => some (decide (c < 5), db2)

/-- Observable steps of one `main` run, in program order. -/
inductive Event where
  | increment
  | fetchInfo
  | fetchNews
  | fetchRecs
  | fetchUpDown
  | fetchHist
  | generateR
  | renderPdf
deriving DecidableEq

/-- One run of `main` (src/app.py lines 199-394) for an authenticated
user: read the stored count; stop when it is at least 5; otherwise, when
a button was pressed, increment the usage first and only then attempt
the five fetches, the generation, and (for the download button) the PDF
render — each attempt appears in the event trace in program order, and
a failing attempt (caught by its `try`/`except`) changes nothing else.
`none` models an uncaught error (missing user row). -/
def runMain (today : Nat) (db : UserStore) (u : String) (genBtn dlBtn : Bool)
    (f1 : Except String PyDict) (f2 : Except String (List NewsItem))
    (f3 f4 : Except String (Option (List RecRow)))
    (llm : String → List String) (current_time : String) :
    Option (UserStore × List Event × Option String) :=
  match get_usage_count db u with
  | none => none
  | some cnt =>
    if cnt ≥ 5 then some (db, [], none)
    else if genBtn || dlBtn then
      match increment_usage today db u with
      | none => none
      | some db2 =>
        let doc := runPipeline f1 f2 f3 f4
        let report := generate_report llm current_time doc
        some (db2,
          [Event.increment, Event.fetchInfo, Event.fetchNews, Event.fetchRecs,
           Event.fetchUpDown, Event.fetchHist, Event.generateR]
            ++ (if dlBtn then [Event.renderPdf] else []),
          report)
    else some (db, [], none)

/-- Claim-side predicate (C1): the payload dictionary of an `Available`
FetchResult contains at least one non-empty (truthy) field value. -/
def hasNonEmptyField (d : PyDict) : Bool := d.any (fun kv => kv.2.truthy)

/-- The four line classes of the Document Renderer claim (C3). -/
inductive LineClass where
  | title
  | heading3
  | bullet
  | paragraph
deriving DecidableEq

/-- Claim-side classification (C3), exactly as the specification words
it: priority order `# `, then `### `, then `- `, then paragraph. -/
def claimClassify (line : String) : LineClass :=
  if strStartsWith line "# " then .title
  else if strStartsWith line "### " then .heading3
  else if strStartsWith line "- " then .bullet
  else .paragraph

/-- The ReportLab style name each claimed class renders with. -/
def claimStyleOf : LineClass → String
  | .title => "Title"
  | .heading3 => "Heading3"
  | .bullet => "BodyText"
  | .paragraph => "Justify"

/-- Claim-side line content (C3): the marker is stripped, and for a
bullet the dash is replaced by the bullet glyph; otherwise the line is
preserved. -/
def claimContentOf (line : String) : String :=
  match claimClassify line with
  | .title => strDrop line 2
  | .heading3 => strDrop line 4
  | .bullet => "• " ++ strDrop line 2
  | .paragraph => line

/-- Claim-side price string (C8): the value of `regularMarketPrice` if
that key is present, otherwise the value of `currentPrice`, with the
reported currency code appended and `"USD"` used when the currency key
is absent. -/
def claimPriceSelection (d : PyDict) : String :=
  (match pyFind d "regularMarketPrice" with
   | some v => v
   | none => pyGet d "currentPrice").fmt
  ++ " " ++
  (match pyFind d "currency" with
   | some v => v.fmt
   | none => "USD")

/-- Two strings with the same character data are equal. -/
theorem string_eq_of_data_eq {s t : String} (h : s.data = t.data) : s = t := by
  cases s; cases t; exact congrArg String.mk h

/-- A string with non-empty character data is not the empty string. -/
theorem str_ne_empty_of_data_ne {s : String} (h : s.data ≠ []) : s ≠ "" :=
  fun e => h (by rw [e])

/-- An append whose left part has non-empty data is non-empty. -/
theorem left_append_ne_empty (a t : String) (ha : a.data ≠ []) : a ++ t ≠ "" := by
  apply str_ne_empty_of_data_ne
  rw [String.data_append]
  intro h
  exact ha (List.append_eq_nil.mp h).1

/-- A three-part append whose leftmost part has non-empty data is non-empty. -/
theorem left2_append_ne_empty (a b c : String) (ha : a.data ≠ []) : a ++ b ++ c ≠ "" := by
  apply left_append_ne_empty
  rw [String.data_append]
  intro h
  exact ha (List.append_eq_nil.mp h).1

/-- A four-part append whose leftmost part has non-empty data is non-empty. -/
theorem left3_append_ne_empty (a b c d : String) (ha : a.data ≠ []) :
    a ++ b ++ c ++ d ≠ "" := by
  apply left_append_ne_empty
  rw [String.data_append, String.data_append]
  intro h
  exact ha (List.append_eq_nil.mp (List.append_eq_nil.mp h).1).1

/-- A list is a prefix of itself followed by anything. -/
theorem isPrefixOf_append_self (l t : List Char) : l.isPrefixOf (l ++ t) = true := by
  rw [List.isPrefixOf_iff_prefix]
  exact List.prefix_append l t

/-- Python `(p + rest).startswith(p)` is always true. -/
theorem startsWith_append_self (p rest : String) : strStartsWith (p ++ rest) p = true := by
  show p.data.isPrefixOf ((p ++ rest).data) = true
  rw [String.data_append]
  exact isPrefixOf_append_self _ _

/-- Python `(p + rest)[n:]` recovers `rest` when `p` has `n` characters. -/
theorem strDrop_append_exact (p rest : String) (n : Nat) (h : p.data.length = n) :
    strDrop (p ++ rest) n = rest := by
  subst h
  show String.mk (((p ++ rest).data).drop p.data.length) = rest
  rw [String.data_append, List.drop_left]

/-- Looking up the updated user sees the row transformer applied. -/
theorem findUser_updateUser (db : UserStore) (u : String) (f : UserRow → UserRow) :
    findUser (updateUser db u f) u = (findUser db u).map f := by
  induction db with
  | nil => rfl
  | cons p rest ih =>
    obtain ⟨n, r⟩ := p
    show findUser ((if n = u then (n, f r) else (n, r)) :: updateUser rest u f) u
        = Option.map f (if n = u then some r else findUser rest u)
    by_cases h : n = u
    · rw [if_pos h, if_pos h]
      show (if n = u then some (f r) else findUser (updateUser rest u f) u) = some (f r)
      rw [if_pos h]
    · rw [if_neg h, if_neg h]
      show (if n = u then some r else findUser (updateUser rest u f) u)
          = Option.map f (findUser rest u)
      rw [if_neg h]
      exact ih

/-- C4: the derived upgrades/downgrades subsequence has at most 2 rows,
contains only rows whose action is "upgraded" or "downgraded", consists
of the first 2 such rows of the table, and is a subsequence of the
original table, preserving its chronological order. -/
theorem c4_upgrades_filter (rows : List RecRow) :
    (udFilter rows).length ≤ 2 ∧
    ((udFilter rows).all
      (fun r => r.action == "upgraded" || r.action == "downgraded")) = true ∧
    udFilter rows =
      (rows.filter (fun r => r.action == "upgraded" || r.action == "downgraded")).take 2 ∧
    (udFilter rows).Sublist rows := by
  refine ⟨List.length_take_le 2 _, ?_, rfl, ?_⟩
  · rw [List.all_eq_true]
    intro x hx
    have hx' : x ∈ rows.filter (fun r => r.action == "upgraded" || r.action == "downgraded") :=
      List.take_subset 2 _ hx
    exact (List.mem_filter.mp hx').2
  · exact (List.take_sublist _ _).trans (List.filter_sublist _)

/-- C7: signup with an existing username returns failure and leaves the
credential store, in particular the stored password hash, unchanged. -/
theorem c7_duplicate_signup (hashFn : String → String) (today : Nat) (db : UserStore)
    (u p : String) (row : UserRow) (h : findUser db u = some row) :
    (create_user hashFn today db u p).1 = false ∧
    (create_user hashFn today db u p).2 = db ∧
    findUser (create_user hashFn today db u p).2 u = some row := by
  simp [create_user, h]

/-- Witness for C7 at a concrete store holding one user. -/
theorem c7_duplicate_signup_witness :
    (create_user (fun s => s) 0 [("bob", ⟨"H", 0, 0⟩)] "bob" "pw").1 = false ∧
    (create_user (fun s => s) 0 [("bob", ⟨"H", 0, 0⟩)] "bob" "pw").2 = [("bob", ⟨"H", 0, 0⟩)] ∧
    findUser (create_user (fun s => s) 0 [("bob", ⟨"H", 0, 0⟩)] "bob" "pw").2 "bob" =
      some ⟨"H", 0, 0⟩ :=
  c7_duplicate_signup (fun s => s) 0 [("bob", ⟨"H", 0, 0⟩)] "bob" "pw" ⟨"H", 0, 0⟩ rfl

/-- C10: `get_usage_count` and `reset_usage_if_new_day` raise (here:
return `none`) exactly when the identity has no row — they never return
a default count of 0 — and when a row exists the error branch is
unreachable. -/
theorem c10_missing_identity (db : UserStore) (u : String) (today : Nat) :
    (get_usage_count db u = none ↔ findUser db u = none) ∧
    (reset_usage_if_new_day today db u = none ↔ findUser db u = none) ∧
    (∀ row : UserRow, findUser db u = some row →
      get_usage_count db u = some row.usage_count ∧
      (reset_usage_if_new_day today db u).isSome = true) := by
  refine ⟨?_, ?_, ?_⟩
  · cases h : findUser db u <;> simp [get_usage_count, h]
  · cases h : findUser db u
    · simp [reset_usage_if_new_day, h]
    · simp only [reset_usage_if_new_day, h]
      apply iff_of_false
      · split <;> simp
      · simp
  · intro row h
    constructor
    · simp [get_usage_count, h]
    · simp only [reset_usage_if_new_day, h]
      split <;> rfl

/-- Witness for C10 at the empty store, where both operations raise. -/
theorem c10_missing_identity_witness :
    get_usage_count [] "u" = none ∧ reset_usage_if_new_day 0 [] "u" = none :=
  ⟨(c10_missing_identity [] "u" 0).1.mpr rfl, (c10_missing_identity [] "u" 0).2.1.mpr rfl⟩

/-- C2: evaluation of the usage gate the code actually runs.  With
`usage_count = 4, last_reset = today` the gate allows the run; with
`usage_count = 5, last_reset = today` it blocks.  But with
`usage_count = 7, last_reset = yesterday` (stored day 9, today day 10)
`mainUsageGate` still blocks, because `main` checks the raw stored count
and no day-reset runs before the check — whereas the spec's
`checkAndReserve` (`specCheckAndReserve`) resets the count to 0 first
and allows the run. -/
theorem c2_gate_eval :
    mainUsageGate [("alice", ⟨"h", 4, 10⟩)] "alice" = some true ∧
    mainUsageGate [("alice", ⟨"h", 5, 10⟩)] "alice" = some false ∧
    mainUsageGate [("alice", ⟨"h", 7, 9⟩)] "alice" = some false ∧
    specCheckAndReserve 10 [("alice", ⟨"h", 7, 9⟩)] "alice" =
      some (true, [("alice", ⟨"h", 0, 10⟩)]) := by
  refine ⟨rfl, rfl, rfl, ?_⟩
  decide

/-- C5: when every fetcher is Unavailable the assembled PromptDocument
is exactly the empty string, and the Report Generator is still invoked
on it and (whenever the model endpoint returns at least one choice)
returns a completion without raising. -/
theorem c5_all_unavailable (llm : String → List String) (ct : String)
    (h : llm (reportPrompt ct "") ≠ []) :
    assembleReportInput FetchResult.unavailable FetchResult.unavailable
      FetchResult.unavailable FetchResult.unavailable = "" ∧
    ∃ text, generate_report llm ct
      (assembleReportInput FetchResult.unavailable FetchResult.unavailable
        FetchResult.unavailable FetchResult.unavailable) = some text := by
  have hempty : assembleReportInput FetchResult.unavailable FetchResult.unavailable
      FetchResult.unavailable FetchResult.unavailable = "" := rfl
  refine ⟨hempty, ?_⟩
  rw [hempty]
  unfold generate_report
  cases hl : llm (reportPrompt ct "") with
  | nil => exact absurd hl h
  | cons a as => exact ⟨a, rfl⟩

/-- Witness for C5 with a concrete one-choice model oracle. -/
theorem c5_all_unavailable_witness :
    assembleReportInput FetchResult.unavailable FetchResult.unavailable
      FetchResult.unavailable FetchResult.unavailable = "" ∧
    ∃ text, generate_report (fun _ => ["ok"]) "2024-01-01 00:00:00"
      (assembleReportInput FetchResult.unavailable FetchResult.unavailable
        FetchResult.unavailable FetchResult.unavailable) = some text :=
  c5_all_unavailable (fun _ => ["ok"]) "2024-01-01 00:00:00" (by simp)

/-- C6: an error raised inside any single fetcher is absorbed at that
fetcher's boundary: the pipeline output is always the concatenation of
the four independent section contributions (so no error aborts the
process or reaches the assembler), a failed fetcher contributes the
empty section, and the other three sections are exactly what they would
have been anyway. -/
theorem c6_fetcher_isolation (f1 : Except String PyDict) (f2 : Except String (List NewsItem))
    (f3 f4 : Except String (Option (List RecRow))) :
    runPipeline f1 f2 f3 f4 =
      companyInfoContrib (FetchResult.ofExcept f1) ++ newsContrib (FetchResult.ofExcept f2)
        ++ recsContrib (FetchResult.ofExcept f3) ++ udContrib (FetchResult.ofExcept f4) ∧
    (∀ e, companyInfoContrib (FetchResult.ofExcept (Except.error e)) = "") ∧
    (∀ e, newsContrib (FetchResult.ofExcept (Except.error e)) = "") ∧
    (∀ e, recsContrib (FetchResult.ofExcept (Except.error e)) = "") ∧
    (∀ e, udContrib (FetchResult.ofExcept (Except.error e)) = "") ∧
    (∀ e, runPipeline (Except.error e) f2 f3 f4 =
      newsContrib (FetchResult.ofExcept f2) ++ recsContrib (FetchResult.ofExcept f3)
        ++ udContrib (FetchResult.ofExcept f4)) ∧
    (∀ e, runPipeline f1 (Except.error e) f3 f4 =
      companyInfoContrib (FetchResult.ofExcept f1) ++ recsContrib (FetchResult.ofExcept f3)
        ++ udContrib (FetchResult.ofExcept f4)) ∧
    (∀ e, runPipeline f1 f2 (Except.error e) f4 =
      companyInfoContrib (FetchResult.ofExcept f1) ++ newsContrib (FetchResult.ofExcept f2)
        ++ udContrib (FetchResult.ofExcept f4)) ∧
    (∀ e, runPipeline f1 f2 f3 (Except.error e) =
      companyInfoContrib (FetchResult.ofExcept f1) ++ newsContrib (FetchResult.ofExcept f2)
        ++ recsContrib (FetchResult.ofExcept f3)) := by
  refine ⟨?_, fun e => rfl, fun e => rfl, fun e => rfl, fun e => rfl, ?_, ?_, ?_, ?_⟩
  · simp only [runPipeline, assembleReportInput, String.empty_append]
  all_goals
    intro e
    simp only [runPipeline, assembleReportInput, FetchResult.ofExcept,
      companyInfoContrib, newsContrib, recsContrib, udContrib, String.empty_append,
      String.append_empty]

/-- C1 counterexample: a company-info FetchResult that is Available but
has no non-empty field (its only field value is the empty string) still
gets its `## Company Info` section header emitted into the assembled
document, because the code only tests dict truthiness
(`if company_info_full:`) and the composed price and market-cap strings
are never empty. -/
theorem c1_counterexample :
    hasNonEmptyField [("shortName", PyVal.vStr "")] = false ∧
    occursIn "## Company Info"
      (assembleReportInput (FetchResult.available [("shortName", PyVal.vStr "")])
        FetchResult.unavailable FetchResult.unavailable FetchResult.unavailable) := by
  constructor
  · decide
  · exact ⟨"This section contains information about the company.\n\n",
      "\n\n  - Current Stock Price: None USD\n\n  - Market Cap: None USD\n\n---\n",
      by decide⟩

/-- C3: the Document Renderer classifies every line exactly once, in the
priority order title (`# `), heading-3 (`### `), bullet (`- `, with the
dash replaced by the bullet glyph), then justified paragraph; the title
is followed by the fixed `Spacer(1, 12)`; a uniform `Spacer(1, 6)`
closes every rendered line; and on the fixed sample the four lines come
out as title, heading3, bullet and paragraph with their content
preserved modulo the bullet-glyph substitution. -/
theorem c3_renderer_classification :
    generate_pdf "# Title\n### Heading\n- item one\nplain text" =
      [Flowable.para "Title" "Title", Flowable.spacer 1 12, Flowable.spacer 1 6,
       Flowable.para "Heading" "Heading3", Flowable.spacer 1 6, Flowable.spacer 1 6,
       Flowable.para "• item one" "BodyText", Flowable.spacer 1 6,
       Flowable.para "plain text" "Justify", Flowable.spacer 1 6] ∧
    (∀ line : String, (lineFlowables line).filter Flowable.isContent
        = [Flowable.para (claimContentOf line) (claimStyleOf (claimClassify line))]) ∧
    (∀ rest : String, lineFlowables ("# " ++ rest)
        = [Flowable.para rest "Title", Flowable.spacer 1 12, Flowable.spacer 1 6]) ∧
    (∀ rest : String, lineFlowables ("### " ++ rest)
        = [Flowable.para rest "Heading3", Flowable.spacer 1 6, Flowable.spacer 1 6]) ∧
    (∀ rest : String, lineFlowables ("- " ++ rest)
        = [Flowable.para ("• " ++ rest) "BodyText", Flowable.spacer 1 6]) ∧
    (∀ line : String, ∃ front : List Flowable,
        lineFlowables line = front ++ [Flowable.spacer 1 6]) := by
  refine ⟨by decide, ?_, ?_, ?_, ?_, ?_⟩
  · intro line
    by_cases h1 : strStartsWith line "# "
    · simp [lineFlowables, claimClassify, claimContentOf, claimStyleOf, h1,
        Flowable.isContent, List.filter]
    · by_cases h2 : strStartsWith line "### "
      · simp [lineFlowables, claimClassify, claimContentOf, claimStyleOf, h1, h2,
          Flowable.isContent, List.filter]
      · by_cases h3 : strStartsWith line "- "
        · simp [lineFlowables, claimClassify, claimContentOf, claimStyleOf, h1, h2, h3,
            Flowable.isContent, List.filter]
        · simp [lineFlowables, claimClassify, claimContentOf, claimStyleOf, h1, h2, h3,
            Flowable.isContent, List.filter]
  · intro rest
    simp [lineFlowables, startsWith_append_self "# " rest,
      strDrop_append_exact "# " rest 2 rfl]
  · intro rest
    have hne : strStartsWith ("### " ++ rest) "# " = false := by
      show ("# " : String).data.isPrefixOf (("### " ++ rest).data) = false
      rw [String.data_append, show ("# " : String).data = ['#', ' '] from rfl,
        show ("### " : String).data = ['#', '#', '#', ' '] from rfl]
      simp [List.isPrefixOf]
    simp [lineFlowables, hne, startsWith_append_self "### " rest,
      strDrop_append_exact "### " rest 4 rfl]
  · intro rest
    have hne1 : strStartsWith ("- " ++ rest) "# " = false := by
      show ("# " : String).data.isPrefixOf (("- " ++ rest).data) = false
      rw [String.data_append, show ("# " : String).data = ['#', ' '] from rfl,
        show ("- " : String).data = ['-', ' '] from rfl]
      simp [List.isPrefixOf]
    have hne2 : strStartsWith ("- " ++ rest) "### " = false := by
      show ("### " : String).data.isPrefixOf (("- " ++ rest).data) = false
      rw [String.data_append, show ("### " : String).data = ['#', '#', '#', ' '] from rfl,
        show ("- " : String).data = ['-', ' '] from rfl]
      simp [List.isPrefixOf]
    simp [lineFlowables, hne1, hne2, startsWith_append_self "- " rest,
      strDrop_append_exact "- " rest 2 rfl]
  · intro line
    unfold lineFlowables
    exact ⟨_, rfl⟩

/-- A string with a space spliced into the middle is truthy in Python. -/
theorem pyStr_mid_space_truthy (x y : String) : (PyVal.vStr (x ++ " " ++ y)).truthy = true := by
  show (!(x ++ " " ++ y).data.isEmpty) = true
  rw [String.data_append, String.data_append, show (" " : String).data = [' '] from rfl]
  cases hx : x.data <;> rfl

/-- The composed price string is never falsy, whatever the payload. -/
theorem currentStockPriceVal_truthy (d : PyDict) : (currentStockPriceVal d).truthy = true := by
  unfold currentStockPriceVal
  exact pyStr_mid_space_truthy _ _

/-- Every string occurs in itself. -/
theorem occursIn_self (n : String) : occursIn n n :=
  ⟨"", "", by rw [String.empty_append, String.append_empty]⟩

/-- Occurrence is preserved by prepending text. -/
theorem occursIn_append_left (n t a : String) (h : occursIn n t) : occursIn n (a ++ t) := by
  obtain ⟨x, y, hxy⟩ := h
  refine ⟨a ++ x, y, ?_⟩
  rw [hxy]
  apply string_eq_of_data_eq
  simp [String.data_append, List.append_assoc]

/-- Occurrence is preserved by appending text. -/
theorem occursIn_append_right (n t b : String) (h : occursIn n t) : occursIn n (t ++ b) := by
  obtain ⟨x, y, hxy⟩ := h
  refine ⟨x, y ++ b, ?_⟩
  rw [hxy]
  apply string_eq_of_data_eq
  simp [String.data_append, List.append_assoc]

/-- C8: the rendered company-info section's stock-price field uses the
fallback chain — the value of `regularMarketPrice` when that key is
present, otherwise the value of `currentPrice` — and always appends the
reported currency code, defaulting to `"USD"` when the currency key is
absent; and the company-info markdown always carries that price line. -/
theorem c8_price_fallback (d : PyDict) :
    currentStockPriceVal d = PyVal.vStr (claimPriceSelection d) ∧
    occursIn ("  - Current Stock Price: " ++ (currentStockPriceVal d).fmt ++ "\n\n")
      (company_info_md d) := by
  constructor
  · unfold currentStockPriceVal claimPriceSelection pyGetD pyGet
    cases h1 : pyFind d "regularMarketPrice" <;> cases h2 : pyFind d "currency" <;>
      simp [h1, h2, PyVal.fmt]
  · have he3 : companyInfoEntryMd ("Current Stock Price", currentStockPriceVal d)
        = "  - Current Stock Price: " ++ (currentStockPriceVal d).fmt ++ "\n\n" := by
      simp only [companyInfoEntryMd, currentStockPriceVal_truthy d, if_true]
      rw [show ("  - " ++ "Current Stock Price" ++ ": " : String)
          = "  - Current Stock Price: " from by decide]
    simp only [company_info_md, company_info_cleaned, List.map_cons, List.map_nil,
      List.foldl_cons, List.foldl_nil]
    iterate 26 apply occursIn_append_right
    rw [he3]
    exact occursIn_append_left _ _ _ (occursIn_self _)

/-- C9: on every run the code actually authorizes (stored count below 5,
a button pressed), the usage count is incremented exactly once, as the
very first step of the run — before any fetch, generation or render
event — and the final stored count is the day-reset count plus one, for
every combination of fetcher, model and render outcomes, so a run that
produces no report still consumes one quota unit. -/
theorem c9_increment_first (today : Nat) (db : UserStore) (u : String)
    (genBtn dlBtn : Bool) (f1 : Except String PyDict) (f2 : Except String (List NewsItem))
    (f3 f4 : Except String (Option (List RecRow)))
    (llm : String → List String) (ct : String) (row : UserRow)
    (hrow : findUser db u = some row) (hcount : row.usage_count < 5)
    (hbtn : (genBtn || dlBtn) = true) :
    ∃ db2 ev rpt,
      runMain today db u genBtn dlBtn f1 f2 f3 f4 llm ct = some (db2, ev, rpt) ∧
      ev.head? = some Event.increment ∧
      ev.count Event.increment = 1 ∧
      get_usage_count db2 u =
        some ((if row.last_reset = today then row.usage_count else 0) + 1) := by
  have hget : get_usage_count db u = some row.usage_count := by
    simp [get_usage_count, hrow]
  have hinc : ∃ db2, increment_usage today db u = some db2 ∧
      get_usage_count db2 u =
        some ((if row.last_reset = today then row.usage_count else 0) + 1) := by
    by_cases hday : row.last_reset = today
    · refine ⟨updateUser db u (fun r => { r with usage_count := r.usage_count + 1 }), ?_, ?_⟩
      · simp [increment_usage, reset_usage_if_new_day, hrow, hday]
      · simp [get_usage_count, findUser_updateUser, hrow, hday]
    · refine ⟨updateUser
          (updateUser db u (fun r => { r with usage_count := 0, last_reset := today }))
          u (fun r => { r with usage_count := r.usage_count + 1 }), ?_, ?_⟩
      · simp [increment_usage, reset_usage_if_new_day, hrow, hday]
      · simp [get_usage_count, findUser_updateUser, hrow, hday]
  obtain ⟨db2, hdb2, hcnt2⟩ := hinc
  have h5 : ¬ row.usage_count ≥ 5 := by omega
  refine ⟨db2,
    [Event.increment, Event.fetchInfo, Event.fetchNews, Event.fetchRecs,
      Event.fetchUpDown, Event.fetchHist, Event.generateR]
      ++ (if dlBtn then [Event.renderPdf] else []),
    generate_report llm ct (runPipeline f1 f2 f3 f4), ?_, rfl, ?_, hcnt2⟩
  · simp [runMain, hget, hbtn, h5, hdb2]
  · cases dlBtn <;> decide

/-- Witness for C9: a fresh user, generate button pressed, every fetcher
raising and the model returning no choices — the run still consumes one
quota unit. -/
theorem c9_increment_first_witness :
    ∃ db2 ev rpt,
      runMain 0 [("a", ⟨"h", 0, 0⟩)] "a" true false (Except.error "x") (Except.error "x")
        (Except.error "x") (Except.error "x") (fun _ => []) "" = some (db2, ev, rpt) ∧
      ev.head? = some Event.increment ∧
      ev.count Event.increment = 1 ∧
      get_usage_count db2 "a" = some ((if (0 : Nat) = 0 then 0 else 0) + 1) :=
  c9_increment_first 0 [("a", ⟨"h", 0, 0⟩)] "a" true false (Except.error "x")
    (Except.error "x") (Except.error "x") (Except.error "x") (fun _ => []) ""
    ⟨"h", 0, 0⟩ rfl (by decide) rfl

/-- Occurrence in the seed string survives a left fold of appends. -/
theorem occursIn_foldl_append (n : String) (l : List String) (init : String)
    (h : occursIn n init) : occursIn n (l.foldl (· ++ ·) init) := by
  induction l generalizing init with
  | nil => exact h
  | cons x xs ih => exact ih (init ++ x) (occursIn_append_right _ _ _ h)

/-- C1 (amended): the assembled PromptDocument is exactly the
concatenation, in the fixed program order, of the four named section
strings — company info, then news, then recommendations, then
upgrades/downgrades; a section string is non-empty exactly when its
FetchResult is Available and passes the code's per-section guard (a
non-empty payload dict for company info, at least one news item, a
present non-empty table for recommendations, a present table with at
least one upgraded/downgraded row for upgrades/downgrades); and every
section that appears carries its identifying header — `## Company Info`,
`## Company News`, `## Analyst Recommendations`, `## Upgrades/Downgrades`
— both inside its own section string and inside the assembled document. -/
theorem c1_amended_sections (r1 : FetchResult PyDict) (r2 : FetchResult (List NewsItem))
    (r3 r4 : FetchResult (Option (List RecRow))) :
    assembleReportInput r1 r2 r3 r4 =
      companyInfoContrib r1 ++ newsContrib r2 ++ recsContrib r3 ++ udContrib r4 ∧
    (companyInfoContrib r1 ≠ "" ↔ ∃ d, r1 = FetchResult.available d ∧ d ≠ []) ∧
    (newsContrib r2 ≠ "" ↔ ∃ items, r2 = FetchResult.available items ∧ items ≠ []) ∧
    (recsContrib r3 ≠ "" ↔ ∃ rows, r3 = FetchResult.available (some rows) ∧ rows ≠ []) ∧
    (udContrib r4 ≠ "" ↔ ∃ rows, r4 = FetchResult.available (some rows) ∧ udFilter rows ≠ []) ∧
    (companyInfoContrib r1 ≠ "" → occursIn "## Company Info" (companyInfoContrib r1)) ∧
    (newsContrib r2 ≠ "" → occursIn "## Company News" (newsContrib r2)) ∧
    (recsContrib r3 ≠ "" → occursIn "## Analyst Recommendations" (recsContrib r3)) ∧
    (udContrib r4 ≠ "" → occursIn "## Upgrades/Downgrades" (udContrib r4)) ∧
    (companyInfoContrib r1 ≠ "" →
      occursIn "## Company Info" (assembleReportInput r1 r2 r3 r4)) ∧
    (newsContrib r2 ≠ "" → occursIn "## Company News" (assembleReportInput r1 r2 r3 r4)) ∧
    (recsContrib r3 ≠ "" →
      occursIn "## Analyst Recommendations" (assembleReportInput r1 r2 r3 r4)) ∧
    (udContrib r4 ≠ "" →
      occursIn "## Upgrades/Downgrades" (assembleReportInput r1 r2 r3 r4)) := by
  have hdoc : assembleReportInput r1 r2 r3 r4 =
      companyInfoContrib r1 ++ newsContrib r2 ++ recsContrib r3 ++ udContrib r4 := by
    simp only [assembleReportInput, String.empty_append]
  have hciO : companyInfoContrib r1 ≠ "" →
      occursIn "## Company Info" (companyInfoContrib r1) := by
    intro hne
    cases r1 with
    | unavailable => exact absurd rfl hne
    | available d =>
      cases d with
      | nil => exact absurd rfl hne
      | cons kv rest =>
        simp only [companyInfoContrib, List.isEmpty_cons, Bool.false_eq_true, if_false]
        apply occursIn_append_right
        apply occursIn_append_left
        simp only [company_info_md]
        apply occursIn_foldl_append
        exact ⟨"", "\n\n", by decide⟩
  have hnwO : newsContrib r2 ≠ "" → occursIn "## Company News" (newsContrib r2) := by
    intro hne
    cases r2 with
    | unavailable => exact absurd rfl hne
    | available items =>
      cases items with
      | nil => exact absurd rfl hne
      | cons it rest =>
        simp only [newsContrib, List.isEmpty_cons, Bool.false_eq_true, if_false]
        apply occursIn_append_right
        apply occursIn_append_left
        apply occursIn_append_right
        exact ⟨"", "\n\n\n", by decide⟩
  have hrcO : recsContrib r3 ≠ "" →
      occursIn "## Analyst Recommendations" (recsContrib r3) := by
    intro hne
    cases r3 with
    | unavailable => exact absurd rfl hne
    | available t =>
      cases t with
      | none => exact absurd rfl hne
      | some rows =>
        cases rows with
        | nil => exact absurd rfl hne
        | cons rw rest =>
          simp only [recsContrib, List.isEmpty_cons, Bool.false_eq_true, if_false]
          apply occursIn_append_right
          apply occursIn_append_right
          apply occursIn_append_right
          exact ⟨"", "\n\n", by decide⟩
  have hudO : udContrib r4 ≠ "" →
      occursIn "## Upgrades/Downgrades" (udContrib r4) := by
    intro hne
    cases r4 with
    | unavailable => exact absurd rfl hne
    | available t =>
      cases t with
      | none => exact absurd rfl hne
      | some rows =>
        cases rows with
        | nil => exact absurd rfl hne
        | cons rw rest =>
          cases hud : udFilter (rw :: rest) with
          | nil => exact absurd (by simp [udContrib, hud]) hne
          | cons x xs =>
            simp only [udContrib, hud, List.isEmpty_cons, Bool.false_eq_true, if_false]
            apply occursIn_append_right
            apply occursIn_append_right
            apply occursIn_append_right
            exact ⟨"", "\n\n", by decide⟩
  refine ⟨hdoc, ?_, ?_, ?_, ?_, hciO, hnwO, hrcO, hudO, ?_, ?_, ?_, ?_⟩
  · cases r1 with
    | unavailable => simp [companyInfoContrib]
    | available d =>
      cases d with
      | nil => simp [companyInfoContrib]
      | cons kv rest =>
        apply iff_of_true
        · simp only [companyInfoContrib, List.isEmpty_cons, Bool.false_eq_true, if_false]
          exact left2_append_ne_empty _ _ _ (by decide)
        · exact ⟨kv :: rest, rfl, by simp⟩
  · cases r2 with
    | unavailable => simp [newsContrib]
    | available items =>
      cases items with
      | nil => simp [newsContrib]
      | cons it rest =>
        apply iff_of_true
        · simp only [newsContrib, List.isEmpty_cons, Bool.false_eq_true, if_false]
          exact left2_append_ne_empty _ _ _ (by decide)
        · exact ⟨it :: rest, rfl, by simp⟩
  · cases r3 with
    | unavailable => simp [recsContrib]
    | available t =>
      cases t with
      | none => simp [recsContrib]
      | some rows =>
        cases rows with
        | nil => simp [recsContrib]
        | cons rw rest =>
          apply iff_of_true
          · simp only [recsContrib, List.isEmpty_cons, Bool.false_eq_true, if_false]
            exact left3_append_ne_empty _ _ _ _ (by decide)
          · exact ⟨rw :: rest, rfl, by simp⟩
  · cases r4 with
    | unavailable => simp [udContrib]
    | available t =>
      cases t with
      | none => simp [udContrib]
      | some rows =>
        cases rows with
        | nil => simp [udContrib, udFilter]
        | cons rw rest =>
          cases hud : udFilter (rw :: rest) with
          | nil =>
            apply iff_of_false
            · simp [udContrib, hud]
            · simp [hud]
          | cons x xs =>
            apply iff_of_true
            · simp only [udContrib, List.isEmpty_cons, Bool.false_eq_true, if_false, hud]
              exact left3_append_ne_empty _ _ _ _ (by decide)
            · exact ⟨rw :: rest, rfl, by simp [hud]⟩
  · intro hne
    rw [hdoc]
    apply occursIn_append_right
    apply occursIn_append_right
    apply occursIn_append_right
    exact hciO hne
  · intro hne
    rw [hdoc]
    apply occursIn_append_right
    apply occursIn_append_right
    apply occursIn_append_left
    exact hnwO hne
  · intro hne
    rw [hdoc]
    apply occursIn_append_right
    apply occursIn_append_left
    exact hrcO hne
  · intro hne
    rw [hdoc]
    apply occursIn_append_left
    exact hudO hne

/-- Witness for C1 (amended) at a concrete Available payload: the
company-info header really occurs in the assembled document. -/
theorem c1_amended_sections_witness :
    occursIn "## Company Info"
      (assembleReportInput (FetchResult.available [("shortName", PyVal.vStr "Nvidia")])
        FetchResult.unavailable FetchResult.unavailable FetchResult.unavailable) :=
  (c1_amended_sections (FetchResult.available [("shortName", PyVal.vStr "Nvidia")])
      FetchResult.unavailable FetchResult.unavailable
      FetchResult.unavailable).2.2.2.2.2.2.2.2.2.1 (by decide)
